import Mathlib

/-!
Shallow embedding of the McKinsey-Solve-Games repository.

Two independent components are modelled:

* `src/Sea_Wolf/sea_wold.py` — the microbe group scorer (`calculate_score`)
  and the brute-force best-group search (`find_top_microbes`).
* `src/Ecosystem/Ecosystem.py` — the feeding-event state machine
  (`simulate_feeding`) over a food-chain graph.

Python dictionaries are modelled as records whose fields are `Option`s
(`none` = the key is absent); a raised `KeyError` is modelled by the
function returning `none`.  Python numbers are modelled by `ℚ` (the only
non-integer operation in the sources is exact division), scores by `ℕ`.
-/

/-- A microbe record as read from `microbe_data.json`.  Each field models
the corresponding dictionary key; `none` means the key is missing.  The
trait-list key is spelled `desireable` in the data, as in the source. -/
structure MicrobeDict where
  name : Option String
  permeability : Option ℚ
  mobility : Option ℚ
  energy : Option ℚ
  desireable : Option (List String)
  deriving Repr, DecidableEq

/-- The site profile dictionary (`site_profile` in the source): three
inclusive `[min, max]` ranges and the `desirable` trait list. -/
structure SiteProfile where
  permeability : Option (ℚ × ℚ)
  mobility : Option (ℚ × ℚ)
  energy : Option (ℚ × ℚ)
  desirable : Option (List String)
  deriving Repr, DecidableEq

/-- `set(m.get('desireable', []))` — a missing trait key is read as `[]`. -/
def MicrobeDict.traits (m : MicrobeDict) : List String :=
  m.desireable.getD []

/-- Embedding of `calculate_score(microbes, site_profile)`
(`src/Sea_Wolf/sea_wold.py`, lines 27–50).  Every attribute average is the
sum over the group divided by the literal `3`, exactly as in the source.
A missing numeric microbe key or a missing profile key raises `KeyError`
in Python: modelled by returning `none`. -/
def calculate_score (microbes : List MicrobeDict) (site_profile : SiteProfile) :
    Option ℕ :=
  match microbes.mapM MicrobeDict.permeability,
        microbes.mapM MicrobeDict.mobility,
        microbes.mapM MicrobeDict.energy,
        site_profile.permeability, site_profile.mobility,
        site_profile.energy, site_profile.desirable with
  | some perms, some mobs, some energies,
      some p_range, some m_range, some e_range, some any_desirable =>
    let avg_permeability : ℚ := perms.sum / 3
    let avg_mobility : ℚ := mobs.sum / 3
    let avg_energy : ℚ := energies.sum / 3
    let s1 : ℕ :=
      if p_range.1 ≤ avg_permeability ∧ avg_permeability ≤ p_range.2 then 20 else 0
    let s2 : ℕ :=
      if m_range.1 ≤ avg_mobility ∧ avg_mobility ≤ m_range.2 then 20 else 0
    let s3 : ℕ :=
      if e_range.1 ≤ avg_energy ∧ avg_energy ≤ e_range.2 then 20 else 0
    let s4 : ℕ :=
      if microbes.any (fun m => m.traits.any (fun t => any_desirable.contains t))
      then 20 else 0
    some (s1 + s2 + s3 + s4)
  | _, _, _, _, _, _, _ => none

/-- The `site_profile` literal from `src/Sea_Wolf/sea_wold.py`, lines 69–74. -/
def example_site_profile : SiteProfile :=
  { permeability := some (1, 2)
    mobility := some (2, 4)
    energy := some (8, 10)
    desirable := some ["Aerobic"] }

/-- Entity A of the spec's worked example: perm 1, mob 2, energy 8, {Aerobic}. -/
def microbeA : MicrobeDict :=
  { name := some "A", permeability := some 1, mobility := some 2,
    energy := some 8, desireable := some ["Aerobic"] }

/-- Entity B of the spec's worked example: perm 1, mob 2, energy 8, no traits. -/
def microbeB : MicrobeDict :=
  { name := some "B", permeability := some 1, mobility := some 2,
    energy := some 8, desireable := some [] }

/-- Entity C of the spec's worked example: perm 5, mob 5, energy 5, no traits. -/
def microbeC : MicrobeDict :=
  { name := some "C", permeability := some 5, mobility := some 5,
    energy := some 5, desireable := some [] }

/-- Evaluation of the scorer on the worked example (shared helper). -/
theorem calculate_score_worked_example_aux :
    calculate_score [microbeA, microbeB, microbeC] example_site_profile =
      some 40 := by
  simp only [calculate_score, microbeA, microbeB, microbeC, example_site_profile,
    MicrobeDict.traits, List.mapM_cons, List.mapM_nil, Option.bind_eq_bind,
    Option.some_bind, Option.getD]
  norm_num

/-- C1: on the spec's worked example — pool A(1,2,8,{Aerobic}), B(1,2,8,{}),
C(5,5,5,{}) against profile {permeability:[1,2], mobility:[2,4],
energy:[8,10], desirable:{Aerobic}} — the scorer returns exactly 40:
0 for permeability (avg 7/3 ∉ [1,2]), 20 for mobility (avg 3), 0 for
energy (avg 7), 20 for the trait check (A carries Aerobic). -/
theorem calculate_score_worked_example :
    calculate_score [microbeA, microbeB, microbeC] example_site_profile =
      some 40 :=
  calculate_score_worked_example_aux

/-- Modelled from the spec's words for comparison with the source (claim C2):
the same scorer but with each per-attribute value computed as "the sum of
that attribute over the group divided by the number of entities in the
group" (a simple mean) instead of the source's literal division by 3. -/
def calculate_score_mean (microbes : List MicrobeDict) (site_profile : SiteProfile) :
    Option ℕ :=
  match microbes.mapM MicrobeDict.permeability,
        microbes.mapM MicrobeDict.mobility,
        microbes.mapM MicrobeDict.energy,
        site_profile.permeability, site_profile.mobility,
        site_profile.energy, site_profile.desirable with
  | some perms, some mobs, some energies,
      some p_range, some m_range, some e_range, some any_desirable =>
    let avg_permeability : ℚ := perms.sum / (microbes.length : ℚ)
    let avg_mobility : ℚ := mobs.sum / (microbes.length : ℚ)
    let avg_energy : ℚ := energies.sum / (microbes.length : ℚ)
    let s1 : ℕ :=
      if p_range.1 ≤ avg_permeability ∧ avg_permeability ≤ p_range.2 then 20 else 0
    let s2 : ℕ :=
      if m_range.1 ≤ avg_mobility ∧ avg_mobility ≤ m_range.2 then 20 else 0
    let s3 : ℕ :=
      if e_range.1 ≤ avg_energy ∧ avg_energy ≤ e_range.2 then 20 else 0
    let s4 : ℕ :=
      if microbes.any (fun m => m.traits.any (fun t => any_desirable.contains t))
      then 20 else 0
    some (s1 + s2 + s3 + s4)
  | _, _, _, _, _, _, _ => none

/-- A single microbe with every numeric attribute equal to 3 and no traits. -/
def microbeU : MicrobeDict :=
  { name := some "U", permeability := some 3, mobility := some 3,
    energy := some 3, desireable := some [] }

/-- A profile whose permeability range is the point [3,3] and whose other
ranges are wide: it separates division by 3 from division by group size. -/
def point_profile : SiteProfile :=
  { permeability := some (3, 3)
    mobility := some (0, 100)
    energy := some (0, 100)
    desirable := some [] }

/-- C2 counterexample: on the singleton group {U(3,3,3)} against the profile
{permeability:[3,3], mobility:[0,100], energy:[0,100]}, the source scorer
divides each sum by the literal 3 (averages 1,1,1 → score 40), whereas the
claimed simple mean over the group (averages 3,3,3) would give 60: the
per-attribute value is not the mean over the entities of the group. -/
theorem calculate_score_singleton_not_mean :
    calculate_score [microbeU] point_profile = some 40 ∧
    calculate_score_mean [microbeU] point_profile = some 60 ∧
    calculate_score [microbeU] point_profile ≠
      calculate_score_mean [microbeU] point_profile := by
  refine ⟨?_, ?_, ?_⟩ <;>
    simp only [calculate_score, calculate_score_mean, microbeU, point_profile,
      MicrobeDict.traits, List.mapM_cons, List.mapM_nil, Option.bind_eq_bind,
      Option.some_bind, Option.getD, List.length_cons, List.length_nil] <;>
    norm_num

/-- C2 amended: the scorer always divides each attribute sum by the literal
3; for groups of exactly 3 entities (the only size §3's invariant allows)
this coincides with the simple mean over the group. -/
theorem calculate_score_eq_mean_of_length_three
    (microbes : List MicrobeDict) (site_profile : SiteProfile)
    (h : microbes.length = 3) :
    calculate_score microbes site_profile =
      calculate_score_mean microbes site_profile := by
  simp [calculate_score, calculate_score_mean, h]

/-- Witness for `calculate_score_eq_mean_of_length_three` at the worked
example's 3-microbe group. -/
theorem calculate_score_eq_mean_of_length_three_witness :
    [microbeA, microbeB, microbeC].length = 3 ∧
    calculate_score [microbeA, microbeB, microbeC] example_site_profile =
      calculate_score_mean [microbeA, microbeB, microbeC] example_site_profile :=
  ⟨by decide,
   calculate_score_eq_mean_of_length_three [microbeA, microbeB, microbeC]
     example_site_profile (by decide)⟩

/-- Any defined score is at most 80: the source implements four 20-point
criteria (three range checks and one trait check), so even with all four
earned the total cannot exceed 80. -/
theorem score_le_eighty (microbes : List MicrobeDict) (sp : SiteProfile)
    (s : ℕ) (h : calculate_score microbes sp = some s) : s ≤ 80 := by
  unfold calculate_score at h
  split at h
  · simp only [Option.some.injEq] at h
    subst h
    split_ifs <;> omega
  · exact absurd h (by simp)

/-- A 3-microbe pool in which every range is hit and a desired trait is
carried: all four implemented criteria fire. -/
def perfect_pool : List MicrobeDict :=
  [ { name := some "P1", permeability := some 1, mobility := some 3,
      energy := some 9, desireable := some ["Aerobic"] },
    { name := some "P2", permeability := some 1, mobility := some 3,
      energy := some 9, desireable := some [] },
    { name := some "P3", permeability := some 2, mobility := some 3,
      energy := some 9, desireable := some [] } ]

/-- C3 counterexample: a score of 100 is not attainable — for every group
and every profile for which the scorer returns a value at all, that value
is never 100 (only four 20-point criteria are implemented). -/
theorem score_never_hundred :
    ¬ ∃ (microbes : List MicrobeDict) (sp : SiteProfile),
        calculate_score microbes sp = some 100 := by
  rintro ⟨microbes, sp, h⟩
  have := score_le_eighty microbes sp 100 h
  omega

/-- C3 amended: the maximum attainable score is 80, not 100 — every defined
score is at most 80, and 80 is attained by a concrete group and profile
satisfying all four implemented criteria. -/
theorem score_max_is_eighty :
    (∀ (microbes : List MicrobeDict) (sp : SiteProfile) (s : ℕ),
        calculate_score microbes sp = some s → s ≤ 80) ∧
    calculate_score perfect_pool example_site_profile = some 80 := by
  constructor
  · exact score_le_eighty
  · simp only [calculate_score, perfect_pool, example_site_profile,
      MicrobeDict.traits, List.mapM_cons, List.mapM_nil, Option.bind_eq_bind,
      Option.some_bind, Option.getD]
    norm_num

/-- Witness for `score_max_is_eighty`: its universally quantified conjunct
applied at the worked example, whose score 40 is indeed at most 80. -/
theorem score_max_is_eighty_witness : (40 : ℕ) ≤ 80 :=
  score_max_is_eighty.1 [microbeA, microbeB, microbeC] example_site_profile 40
    calculate_score_worked_example_aux

/-- C4: every defined score is one of 0, 20, 40, 60, 80, 100 — a sum of
four independent boolean 20-point contributions. -/
theorem score_mem_multiples_of_twenty (microbes : List MicrobeDict)
    (sp : SiteProfile) (s : ℕ) (h : calculate_score microbes sp = some s) :
    s = 0 ∨ s = 20 ∨ s = 40 ∨ s = 60 ∨ s = 80 ∨ s = 100 := by
  unfold calculate_score at h
  split at h
  · simp only [Option.some.injEq] at h
    subst h
    split_ifs <;> omega
  · exact absurd h (by simp)

/-- Witness for `score_mem_multiples_of_twenty` at the worked example. -/
theorem score_mem_multiples_of_twenty_witness :
    (40 : ℕ) = 0 ∨ (40 : ℕ) = 20 ∨ (40 : ℕ) = 40 ∨ (40 : ℕ) = 60 ∨
      (40 : ℕ) = 80 ∨ (40 : ℕ) = 100 :=
  score_mem_multiples_of_twenty [microbeA, microbeB, microbeC]
    example_site_profile 40 calculate_score_worked_example_aux

/-- Evaluation of the scorer on the worked example with an empty desirable
list: only the mobility range check fires (shared helper). -/
theorem calculate_score_worked_example_empty_desirable :
    calculate_score [microbeA, microbeB, microbeC]
      { example_site_profile with desirable := some [] } = some 20 := by
  simp only [calculate_score, microbeA, microbeB, microbeC, example_site_profile,
    MicrobeDict.traits, List.mapM_cons, List.mapM_nil, Option.bind_eq_bind,
    Option.some_bind, Option.getD]
  norm_num

/-- C5: the trait contribution is a group-level OR worth exactly 20 points —
relative to the same profile with an empty desirable list, the score gains
exactly 20 when at least one entity carries at least one desired trait and
exactly 0 otherwise; no deduction for undesired traits ever occurs. -/
theorem trait_contribution_group_or (microbes : List MicrobeDict)
    (sp : SiteProfile) (des : List String) (hdes : sp.desirable = some des)
    (s0 : ℕ)
    (h0 : calculate_score microbes { sp with desirable := some [] } = some s0) :
    calculate_score microbes sp =
      some (s0 + if ∃ m ∈ microbes, ∃ t ∈ m.traits, t ∈ des then 20 else 0) := by
  have hbridge :
      ((microbes.any fun m => m.traits.any fun t => des.contains t) = true) ↔
        ∃ m ∈ microbes, ∃ t ∈ m.traits, t ∈ des := by
    simp [List.any_eq_true, List.contains, List.elem_iff]
  obtain ⟨sp1, sp2, sp3, sp4⟩ := sp
  obtain rfl : sp4 = some des := hdes
  have hfalse :
      (microbes.any fun m => m.traits.any fun t => ([] : List String).contains t)
        = false := by simp
  rcases sp1 with _ | pr <;> rcases sp2 with _ | mr <;> rcases sp3 with _ | er <;>
    rcases hp : microbes.mapM MicrobeDict.permeability with _ | perms <;>
      rcases hm : microbes.mapM MicrobeDict.mobility with _ | mobs <;>
        rcases he : microbes.mapM MicrobeDict.energy with _ | ens <;>
          simp only [calculate_score, hp, hm, he] at h0 ⊢ <;>
            try exact Option.noConfusion h0
  rw [hfalse] at h0
  simp only [Bool.false_eq_true, if_false, add_zero, Option.some.injEq] at h0
  subst h0
  simp only [hbridge]

/-- Witness for `trait_contribution_group_or` at the worked example: with an
empty desirable list the score is 20; restoring {Aerobic} adds the 20-point
trait contribution because microbe A carries it. -/
theorem trait_contribution_group_or_witness :
    example_site_profile.desirable = some ["Aerobic"] ∧
    calculate_score [microbeA, microbeB, microbeC]
        { example_site_profile with desirable := some [] } = some 20 ∧
    calculate_score [microbeA, microbeB, microbeC] example_site_profile =
      some (20 + if ∃ m ∈ [microbeA, microbeB, microbeC], ∃ t ∈ m.traits,
          t ∈ ["Aerobic"] then 20 else 0) :=
  ⟨rfl, calculate_score_worked_example_empty_desirable,
   trait_contribution_group_or [microbeA, microbeB, microbeC]
     example_site_profile ["Aerobic"] rfl 20
     calculate_score_worked_example_empty_desirable⟩

/-- `itertools.combinations(xs, k)` as a list of k-element sublists, in the
library's enumeration order: lexicographic by input position, no repeats. -/
def combinations {α : Type} : ℕ → List α → List (List α)
  | 0, _ => [[]]
  | _ + 1, [] => []
  | k + 1, x :: xs =>
    (combinations k xs).map (fun c => x :: c) ++ combinations (k + 1) xs

/-- The accumulator loop of `find_top_microbes`
(`src/Sea_Wolf/sea_wold.py`, lines 55–64): `best_score` starts at 0 and
`best_combo` at `None`; a combination replaces the current best only when
its score is strictly greater (`score > best_score`).  A `KeyError` raised
by `calculate_score` aborts the whole search (outer `none`). -/
def find_top_loop (sp : SiteProfile) :
    List (List MicrobeDict) → Option (List MicrobeDict) → ℕ →
      Option (Option (List MicrobeDict) × ℕ)
  | [], best_combo, best_score => some (best_combo, best_score)
  | combo :: rest, best_combo, best_score =>
    match calculate_score combo sp with
    | none => none
    | some score =>
      if best_score < score then find_top_loop sp rest (some combo) score
      else find_top_loop sp rest best_combo best_score

/-- Embedding of `find_top_microbes(filepath, site_profile)` with the pool
already loaded: enumerate `itertools.combinations(microbes, 3)` and keep
the strictly best-scoring combination. -/
def find_top_microbes (microbes : List MicrobeDict) (sp : SiteProfile) :
    Option (Option (List MicrobeDict) × ℕ) :=
  find_top_loop sp (combinations 3 microbes) none 0

/-- The loop either keeps its incoming best (when no score beats it) or
returns the earliest combination achieving the running maximum, which is
then strictly above the incoming best, strictly above every earlier score
and at least every later score. -/
theorem find_top_loop_spec (sp : SiteProfile) :
    ∀ (cs : List (List MicrobeDict)) (bc : Option (List MicrobeDict)) (bs : ℕ),
    (∀ d ∈ cs, (calculate_score d sp).isSome) →
    ∃ res, find_top_loop sp cs bc bs = some res ∧
      ((res = (bc, bs) ∧
          ∀ d ∈ cs, ∀ sd, calculate_score d sp = some sd → sd ≤ bs) ∨
       (∃ front c back s, cs = front ++ c :: back ∧
          res = (some c, s) ∧ calculate_score c sp = some s ∧ bs < s ∧
          (∀ d ∈ front, ∀ sd, calculate_score d sp = some sd → sd < s) ∧
          (∀ d ∈ back, ∀ sd, calculate_score d sp = some sd → sd ≤ s))) := by
  intro cs
  induction cs with
  | nil =>
    intro bc bs _
    exact ⟨(bc, bs), rfl, Or.inl ⟨rfl, by simp⟩⟩
  | cons c rest ih =>
    intro bc bs hall
    obtain ⟨sc, hsc⟩ := Option.isSome_iff_exists.mp (hall c (by simp))
    have hrest : ∀ d ∈ rest, (calculate_score d sp).isSome := by
      intro d hd
      exact hall d (List.mem_cons_of_mem _ hd)
    by_cases hlt : bs < sc
    · obtain ⟨res, hres, hcase⟩ := ih (some c) sc hrest
      refine ⟨res, ?_, ?_⟩
      · simp only [find_top_loop, hsc, if_pos hlt]
        exact hres
      rcases hcase with ⟨rfl, hbound⟩ | ⟨front, c1, back, s1, rfl, rfl, hs1, hlt1, hfront, hback⟩
      · refine Or.inr ⟨[], c, rest, sc, by simp, rfl, hsc, hlt, by simp, hbound⟩
      · refine Or.inr ⟨c :: front, c1, back, s1, by simp, rfl, hs1, lt_trans hlt hlt1, ?_, hback⟩
        intro d hd sd hsd
        rcases List.mem_cons.mp hd with rfl | hd2
        · rw [hsc] at hsd
          injection hsd with hh
          omega
        · exact hfront d hd2 sd hsd
    · obtain ⟨res, hres, hcase⟩ := ih bc bs hrest
      refine ⟨res, ?_, ?_⟩
      · simp only [find_top_loop, hsc, if_neg hlt]
        exact hres
      rcases hcase with ⟨rfl, hbound⟩ | ⟨front, c1, back, s1, rfl, rfl, hs1, hlt1, hfront, hback⟩
      · refine Or.inl ⟨rfl, ?_⟩
        intro d hd sd hsd
        rcases List.mem_cons.mp hd with rfl | hd2
        · rw [hsc] at hsd
          injection hsd with hh
          omega
        · exact hbound d hd2 sd hsd
      · refine Or.inr ⟨c :: front, c1, back, s1, by simp, rfl, hs1, hlt1, ?_, hback⟩
        intro d hd sd hsd
        rcases List.mem_cons.mp hd with rfl | hd2
        · rw [hsc] at hsd
          injection hsd with hh
          omega
        · exact hfront d hd2 sd hsd

/-- Four microbes whose attributes are all 0 (distinct names only). -/
def microbeZ1 : MicrobeDict :=
  { name := some "Z1", permeability := some 0, mobility := some 0,
    energy := some 0, desireable := some [] }

/-- Second all-zero microbe. -/
def microbeZ2 : MicrobeDict :=
  { name := some "Z2", permeability := some 0, mobility := some 0,
    energy := some 0, desireable := some [] }

/-- Third all-zero microbe. -/
def microbeZ3 : MicrobeDict :=
  { name := some "Z3", permeability := some 0, mobility := some 0,
    energy := some 0, desireable := some [] }

/-- Fourth all-zero microbe. -/
def microbeZ4 : MicrobeDict :=
  { name := some "Z4", permeability := some 0, mobility := some 0,
    energy := some 0, desireable := some [] }

/-- A profile no group can satisfy: every range is the empty interval
[1, 0] and no trait is desirable, so every group scores 0. -/
def impossible_profile : SiteProfile :=
  { permeability := some (1, 0)
    mobility := some (1, 0)
    energy := some (1, 0)
    desirable := some [] }

/-- The all-zero pool of four microbes. -/
def zero_pool : List MicrobeDict :=
  [microbeZ1, microbeZ2, microbeZ3, microbeZ4]

/-- C6 counterexample: over the four-microbe pool Z1..Z4 and the impossible
profile, all four enumerated 3-combinations score 0 — so at least two
distinct groups tie at the maximal score — yet the search returns no group
at all (`best_combo` stays `None` with score 0), not the earliest-enumerated
maximum-scoring combination, because replacement needs a strictly greater
score than the initial 0. -/
theorem find_top_zero_tie_returns_no_group :
    combinations 3 zero_pool =
      [[microbeZ1, microbeZ2, microbeZ3], [microbeZ1, microbeZ2, microbeZ4],
       [microbeZ1, microbeZ3, microbeZ4], [microbeZ2, microbeZ3, microbeZ4]] ∧
    calculate_score [microbeZ1, microbeZ2, microbeZ3] impossible_profile = some 0 ∧
    calculate_score [microbeZ1, microbeZ2, microbeZ4] impossible_profile = some 0 ∧
    calculate_score [microbeZ1, microbeZ3, microbeZ4] impossible_profile = some 0 ∧
    calculate_score [microbeZ2, microbeZ3, microbeZ4] impossible_profile = some 0 ∧
    find_top_microbes zero_pool impossible_profile = some (none, 0) := by
  have h1 : calculate_score [microbeZ1, microbeZ2, microbeZ3] impossible_profile
      = some 0 := by
    simp only [calculate_score, microbeZ1, microbeZ2, microbeZ3, impossible_profile,
      MicrobeDict.traits, List.mapM_cons, List.mapM_nil, Option.bind_eq_bind,
      Option.some_bind, Option.getD]
    norm_num
  have h2 : calculate_score [microbeZ1, microbeZ2, microbeZ4] impossible_profile
      = some 0 := by
    simp only [calculate_score, microbeZ1, microbeZ2, microbeZ4, impossible_profile,
      MicrobeDict.traits, List.mapM_cons, List.mapM_nil, Option.bind_eq_bind,
      Option.some_bind, Option.getD]
    norm_num
  have h3 : calculate_score [microbeZ1, microbeZ3, microbeZ4] impossible_profile
      = some 0 := by
    simp only [calculate_score, microbeZ1, microbeZ3, microbeZ4, impossible_profile,
      MicrobeDict.traits, List.mapM_cons, List.mapM_nil, Option.bind_eq_bind,
      Option.some_bind, Option.getD]
    norm_num
  have h4 : calculate_score [microbeZ2, microbeZ3, microbeZ4] impossible_profile
      = some 0 := by
    simp only [calculate_score, microbeZ2, microbeZ3, microbeZ4, impossible_profile,
      MicrobeDict.traits, List.mapM_cons, List.mapM_nil, Option.bind_eq_bind,
      Option.some_bind, Option.getD]
    norm_num
  have hcombo : combinations 3 zero_pool =
      [[microbeZ1, microbeZ2, microbeZ3], [microbeZ1, microbeZ2, microbeZ4],
       [microbeZ1, microbeZ3, microbeZ4], [microbeZ2, microbeZ3, microbeZ4]] := rfl
  refine ⟨hcombo, h1, h2, h3, h4, ?_⟩
  unfold find_top_microbes
  rw [hcombo]
  simp [find_top_loop, h1, h2, h3, h4]

/-- C6 amended: the search scans `itertools.combinations(pool, 3)` in order
and replaces its best only on a strictly greater score, so whenever some
enumerated combination has a positive score (and every combination's score
is defined), the returned group is the earliest-enumerated combination
achieving the maximal score: strictly above every earlier score and at
least every later one.  (When the maximal score is 0 the search instead
returns no group, as the counterexample shows.) -/
theorem find_top_first_max_on_ties (microbes : List MicrobeDict)
    (sp : SiteProfile)
    (hall : ∀ d ∈ combinations 3 microbes, (calculate_score d sp).isSome)
    (c : List MicrobeDict) (s : ℕ)
    (hc : c ∈ combinations 3 microbes) (hs : calculate_score c sp = some s)
    (hpos : 0 < s) :
    ∃ best bestScore,
      find_top_microbes microbes sp = some (some best, bestScore) ∧
      s ≤ bestScore ∧
      ∃ front back, combinations 3 microbes = front ++ best :: back ∧
        calculate_score best sp = some bestScore ∧
        (∀ d ∈ front, ∀ sd, calculate_score d sp = some sd → sd < bestScore) ∧
        (∀ d ∈ back, ∀ sd, calculate_score d sp = some sd → sd ≤ bestScore) := by
  obtain ⟨res, hres, hcase⟩ :=
    find_top_loop_spec sp (combinations 3 microbes) none 0 hall
  rcases hcase with ⟨rfl, hbound⟩ |
    ⟨front, c1, back, s1, hsplit, rfl, hs1, hpos1, hfront, hback⟩
  · have := hbound c hc s hs
    omega
  · refine ⟨c1, s1, hres, ?_, front, back, hsplit, hs1, hfront, hback⟩
    have hmem := hc
    rw [hsplit] at hmem
    rcases List.mem_append.mp hmem with hf | hcb
    · exact le_of_lt (hfront c hf s hs)
    · rcases List.mem_cons.mp hcb with rfl | hb
      · rw [hs1] at hs
        injection hs with hh
        omega
      · exact hback c hb s hs

/-- Witness for `find_top_first_max_on_ties` on the worked example's pool:
its single 3-combination scores 40 > 0 and is returned. -/
theorem find_top_first_max_on_ties_witness :
    (0 : ℕ) < 40 ∧
    ∃ best bestScore,
      find_top_microbes [microbeA, microbeB, microbeC] example_site_profile =
        some (some best, bestScore) ∧
      40 ≤ bestScore ∧
      ∃ front back,
        combinations 3 [microbeA, microbeB, microbeC] = front ++ best :: back ∧
        calculate_score best example_site_profile = some bestScore ∧
        (∀ d ∈ front, ∀ sd,
          calculate_score d example_site_profile = some sd → sd < bestScore) ∧
        (∀ d ∈ back, ∀ sd,
          calculate_score d example_site_profile = some sd → sd ≤ bestScore) :=
  ⟨by decide,
   find_top_first_max_on_ties [microbeA, microbeB, microbeC] example_site_profile
     (by
       intro d hd
       rw [show combinations 3 [microbeA, microbeB, microbeC] =
           [[microbeA, microbeB, microbeC]] from rfl] at hd
       simp only [List.mem_singleton] at hd
       subst hd
       rw [calculate_score_worked_example_aux]
       rfl)
     [microbeA, microbeB, microbeC] 40
     (by
       rw [show combinations 3 [microbeA, microbeB, microbeC] =
           [[microbeA, microbeB, microbeC]] from rfl]
       simp)
     calculate_score_worked_example_aux (by decide)⟩

/-- A pool shorter than `k` has no `k`-combinations. -/
theorem combinations_eq_nil {α : Type} :
    ∀ (k : ℕ) (xs : List α), xs.length < k → combinations k xs = []
  | 0, _, h => absurd h (by omega)
  | _ + 1, [], _ => rfl
  | k + 1, x :: xs, h => by
    simp only [combinations]
    rw [combinations_eq_nil k xs (by simp only [List.length_cons] at h; omega),
        combinations_eq_nil (k + 1) xs (by simp only [List.length_cons] at h; omega)]
    simp

/-- C7 counterexample: on a two-microbe pool the search does not fail — it
returns normally (no exception is modelled, result is not the error value
`none`), yielding no group and score 0 rather than any
EmptyPool/InsufficientCandidates error. -/
theorem find_top_small_pool_returns_normally :
    find_top_microbes [microbeA, microbeB] example_site_profile =
      some (none, 0) ∧
    find_top_microbes [microbeA, microbeB] example_site_profile ≠ none :=
  ⟨rfl, fun h => Option.noConfusion (show (some (none, 0) :
      Option (Option (List MicrobeDict) × ℕ)) = none from h)⟩

/-- C7 amended: whenever the pool has fewer entities than the group size 3,
the search returns normally with no group: `best_combo` is `None` and the
score is 0 — the same value as for an all-zero-scoring pool — rather than
failing with a named EmptyPool/InsufficientCandidates error. -/
theorem find_top_small_pool_no_group (microbes : List MicrobeDict)
    (sp : SiteProfile) (h : microbes.length < 3) :
    find_top_microbes microbes sp = some (none, 0) := by
  unfold find_top_microbes
  rw [combinations_eq_nil 3 microbes h]
  rfl

/-- Witness for `find_top_small_pool_no_group` on a two-microbe pool. -/
theorem find_top_small_pool_no_group_witness :
    [microbeA, microbeB].length < 3 ∧
    find_top_microbes [microbeA, microbeB] example_site_profile =
      some (none, 0) :=
  ⟨by decide,
   find_top_small_pool_no_group [microbeA, microbeB] example_site_profile
     (by decide)⟩

/-- A node of the food-chain graph (`build_food_chain_graph`,
`src/Ecosystem/Ecosystem.py`, lines 12–35): `calories_needed`,
`calories_provided` and a `type` tag. -/
structure SpeciesNode where
  calories_needed : ℚ
  calories_provided : ℚ
  type : String
  deriving Repr, DecidableEq

/-- The directed food-chain graph: named nodes plus edges predator → prey
(edge A → B means A eats B).  A `networkx.DiGraph` has uniquely named
nodes and no parallel edges. -/
structure FoodGraph where
  nodes : List (String × SpeciesNode)
  edges : List (String × String)
  deriving Repr, DecidableEq

/-- `graph.nodes[name]` — attribute lookup by node name. -/
def FoodGraph.getNode (g : FoodGraph) (n : String) : Option SpeciesNode :=
  (g.nodes.find? (fun q => q.1 == n)).map (fun q => q.2)

/-- `list(graph.successors(name))` — the direct prey of `name`. -/
def FoodGraph.successors (g : FoodGraph) (n : String) : List String :=
  (g.edges.filter (fun e => e.1 == n)).map (fun e => e.2)

/-- The observable outcome of one feeding event — in the source each case
is reported by a distinct printed message. -/
inductive FeedOutcome
  | notFound
  | producerNoOp
  | noPrey
  | insufficientCalories
  | fed
  deriving Repr, DecidableEq

/-- `graph.nodes[p]["calories_provided"]`. -/
def provOf (g : FoodGraph) (p : String) : Option ℚ :=
  (g.getNode p).map (fun nd => nd.calories_provided)

/-- Embedding of `simulate_feeding(graph, predator_name)`
(`src/Ecosystem/Ecosystem.py`, lines 178–221).  The prey are paired with
their `calories_provided` once (`prey_list.zip cals`), which agrees with
the source's repeated dictionary lookups because nothing is mutated before
the final update.  A `KeyError` (an edge pointing at a missing node) is
modelled by the outer `none`. -/
def simulate_feeding (graph : FoodGraph) (predator_name : String) :
    Option (FeedOutcome × FoodGraph) :=
  match graph.getNode predator_name with
  | none => some (.notFound, graph)
  | some predator =>
    let needed := predator.calories_needed
    if predator.type == "producer" then some (.producerNoOp, graph)
    else
      let prey_list := graph.successors predator_name
      if prey_list.isEmpty then some (.noPrey, graph)
      else
        match prey_list.mapM (provOf graph) with
        | none => none
        | some cals =>
          match cals.max? with
          | none => none
          | some max_cal =>
            let best_prey := (prey_list.zip cals).filter (fun q => q.2 == max_cal)
            let total_available := (best_prey.map (fun q => q.2)).sum
            if total_available < needed then
              some (.insufficientCalories, graph)
            else
              let portion := needed / (best_prey.length : ℚ)
              let best_names := best_prey.map (fun q => q.1)
              let g1 : FoodGraph :=
                { graph with
                  nodes := graph.nodes.map (fun q =>
                    if best_names.contains q.1 then
                      (q.1, { q.2 with
                              calories_provided := q.2.calories_provided - portion })
                    else q) }
              let g2 : FoodGraph :=
                { g1 with
                  nodes := g1.nodes.map (fun q =>
                    if q.1 == predator_name then
                      (q.1, { q.2 with calories_needed := 0 })
                    else q) }
              some (.fed, g2)

/-- C8: when the predator exists, is no producer, has prey, and the tied-top
prey together provide at least its `calories_needed`, the event feeds:
every tied-top prey's `calories_provided` drops by exactly
`calories_needed / (number of tied-top prey)` (an unclamped subtraction in
ℚ, so it may go negative), the predator's `calories_needed` becomes exactly
0, every other node attribute (including all `type`s) and the edge list are
unchanged. -/
theorem simulate_feeding_fed_spec (g : FoodGraph) (pn : String)
    (predator : SpeciesNode) (cals : List ℚ) (max_cal : ℚ)
    (hpred : g.getNode pn = some predator)
    (htype : predator.type ≠ "producer")
    (hprey : g.successors pn ≠ [])
    (hcals : (g.successors pn).mapM (provOf g) = some cals)
    (hmax : cals.max? = some max_cal)
    (best_prey : List (String × ℚ))
    (hbest : best_prey =
      ((g.successors pn).zip cals).filter (fun q => q.2 == max_cal))
    (htotal : predator.calories_needed ≤ (best_prey.map (fun q => q.2)).sum) :
    simulate_feeding g pn =
      some (.fed,
        { nodes := g.nodes.map (fun q =>
            (q.1,
             { calories_needed := if q.1 = pn then 0 else q.2.calories_needed,
               calories_provided :=
                 if q.1 ∈ best_prey.map (fun q2 => q2.1) then
                   q.2.calories_provided -
                     predator.calories_needed / (best_prey.length : ℚ)
                 else q.2.calories_provided,
               type := q.2.type })),
          edges := g.edges }) := by
  have hne : (predator.type == "producer") = false := by
    simpa using htype
  have hempty : (g.successors pn).isEmpty = false := by
    simpa [List.isEmpty_iff] using hprey
  unfold simulate_feeding
  rw [hpred]
  simp only [hne, Bool.false_eq_true, if_false, hempty, hcals, hmax, ← hbest]
  rw [if_neg (not_lt.mpr htotal)]
  simp only [List.map_map]
  congr 1
  congr 1
  congr 1
  apply List.map_congr_left
  intro q _
  obtain ⟨qn, qd⟩ := q
  by_cases hqp : qn = pn
  · subst hqp
    by_cases hmem : qn ∈ best_prey.map (fun q2 => q2.1) <;> simp [hmem]
  · by_cases hmem : qn ∈ best_prey.map (fun q2 => q2.1) <;> simp [hmem, hqp]

/-- The spec's feeding example: predator P needs 10 calories and has two
tied-top prey X and Y, each providing 8 (total 16 ≥ 10). -/
def example_feed_graph : FoodGraph :=
  { nodes := [("P", ⟨10, 0, "consumer"⟩),
              ("X", ⟨0, 8, "producer"⟩),
              ("Y", ⟨0, 8, "producer"⟩)],
    edges := [("P", "X"), ("P", "Y")] }

/-- Witness for `simulate_feeding_fed_spec` on the spec's example: each prey
is decremented by 10 / 2 = 5 — X and Y end at 3 and P's need ends at 0. -/
theorem simulate_feeding_fed_spec_witness :
    example_feed_graph.getNode "P" = some ⟨10, 0, "consumer"⟩ ∧
    simulate_feeding example_feed_graph "P" =
      some (.fed,
        { nodes := [("P", ⟨0, 0, "consumer"⟩),
                    ("X", ⟨0, 3, "producer"⟩),
                    ("Y", ⟨0, 3, "producer"⟩)],
          edges := [("P", "X"), ("P", "Y")] }) := by
  refine ⟨rfl, ?_⟩
  have h := simulate_feeding_fed_spec example_feed_graph "P" ⟨10, 0, "consumer"⟩
    [8, 8] 8 rfl (by decide) (by decide) rfl
    (by rw [show ([(8 : ℚ), 8]).max? = some (max 8 8) from rfl, max_self])
    [("X", 8), ("Y", 8)] rfl (by norm_num)
  rw [h]
  simp [example_feed_graph]
  norm_num

/-- C9: when the tied-top prey together provide strictly less than the
predator needs, the event reports `InsufficientCalories` and returns the
graph unchanged; moreover every outcome other than `fed` (NotFound, the
producer NoOp, NoPrey, InsufficientCalories) leaves the graph exactly as it
was. -/
theorem simulate_feeding_no_mutation_unless_fed (g : FoodGraph) (pn : String)
    (predator : SpeciesNode) (cals : List ℚ) (max_cal : ℚ)
    (hpred : g.getNode pn = some predator)
    (htype : predator.type ≠ "producer")
    (hprey : g.successors pn ≠ [])
    (hcals : (g.successors pn).mapM (provOf g) = some cals)
    (hmax : cals.max? = some max_cal)
    (hinsuf : (((((g.successors pn).zip cals).filter
        (fun q => q.2 == max_cal)).map (fun q => q.2)).sum <
      predator.calories_needed)) :
    simulate_feeding g pn = some (.insufficientCalories, g) ∧
    ∀ (g2 : FoodGraph) (pn2 : String) (out : FeedOutcome) (g3 : FoodGraph),
      simulate_feeding g2 pn2 = some (out, g3) → out ≠ .fed → g3 = g2 := by
  constructor
  · have hne : (predator.type == "producer") = false := by
      simpa using htype
    have hempty : (g.successors pn).isEmpty = false := by
      simpa [List.isEmpty_iff] using hprey
    unfold simulate_feeding
    rw [hpred]
    simp only [hne, Bool.false_eq_true, if_false, hempty, hcals, hmax]
    rw [if_pos hinsuf]
  · intro g2 pn2 out g3 h hout
    unfold simulate_feeding at h
    rcases hpred2 : g2.getNode pn2 with _ | pred2 <;> simp only [hpred2] at h
    · simp only [Option.some.injEq, Prod.mk.injEq] at h
      exact h.2.symm
    rcases hprod : (pred2.type == "producer") with _ | _ <;>
      simp only [hprod, Bool.false_eq_true, if_false, if_true] at h
    swap
    · simp only [Option.some.injEq, Prod.mk.injEq] at h
      exact h.2.symm
    rcases hemp : (g2.successors pn2).isEmpty with _ | _ <;>
      simp only [hemp, Bool.false_eq_true, if_false, if_true] at h
    swap
    · simp only [Option.some.injEq, Prod.mk.injEq] at h
      exact h.2.symm
    rcases hc2 : (g2.successors pn2).mapM (provOf g2) with _ | cals2
    · rw [hc2] at h
      exact Option.noConfusion h
    · rcases hm2 : cals2.max? with _ | mc2
      · simp only [hc2, hm2] at h
        exact Option.noConfusion h
      · simp only [hc2, hm2] at h
        split at h
        · simp only [Option.some.injEq, Prod.mk.injEq] at h
          exact h.2.symm
        · simp only [Option.some.injEq, Prod.mk.injEq] at h
          exact absurd h.1.symm hout

/-- The spec's insufficient example: predator P needs 20, its single prey X
provides only 5. -/
def hungry_graph : FoodGraph :=
  { nodes := [("P", ⟨20, 0, "consumer"⟩), ("X", ⟨0, 5, "plant"⟩)],
    edges := [("P", "X")] }

/-- Witness for `simulate_feeding_no_mutation_unless_fed` on the spec's
example: 5 < 20, so the event reports InsufficientCalories and P's need
stays 20 (the graph is returned unchanged). -/
theorem simulate_feeding_no_mutation_witness :
    simulate_feeding hungry_graph "P" =
      some (.insufficientCalories, hungry_graph) ∧
    ∀ (g2 : FoodGraph) (pn2 : String) (out : FeedOutcome) (g3 : FoodGraph),
      simulate_feeding g2 pn2 = some (out, g3) → out ≠ .fed → g3 = g2 :=
  simulate_feeding_no_mutation_unless_fed hungry_graph "P" ⟨20, 0, "consumer"⟩
    [5] 5 rfl (by decide) (by decide) rfl rfl
    (by norm_num [hungry_graph, FoodGraph.successors])

/-- An Option-valued traversal of a list succeeds exactly when it succeeds
on every element (shared helper). -/
theorem mapM_isSome_iff {α β : Type} (f : α → Option β) :
    ∀ l : List α, (l.mapM f).isSome ↔ ∀ a ∈ l, (f a).isSome
  | [] => by rw [List.mapM_nil]; simp
  | x :: xs => by
    rw [List.mapM_cons]
    rcases hx : f x with _ | y
    · simp [hx]
    · rcases hxs : xs.mapM f with _ | ys
      · have h2 := mapM_isSome_iff f xs
        rw [hxs] at h2
        simp only [Option.isSome_none, Bool.false_eq_true, false_iff] at h2
        simpa [hx, hxs] using h2
      · have h2 := mapM_isSome_iff f xs
        rw [hxs] at h2
        simp only [Option.isSome_some, true_iff] at h2
        simpa [hx, hxs] using h2

/-- Mapping a function that does not change the traversed field commutes
out of an Option-valued traversal (shared helper). -/
theorem mapM_map_eq {α β : Type} (g : α → α) (f : α → Option β)
    (hfg : ∀ a, f (g a) = f a) :
    ∀ l : List α, (l.map g).mapM f = l.mapM f
  | [] => by rw [List.map_nil]
  | x :: xs => by
    rw [List.map_cons, List.mapM_cons, List.mapM_cons, hfg, mapM_map_eq g f hfg xs]

/-- C10: the scorer is defined exactly when every microbe carries the three
numeric keys and the profile carries its four keys — the `desireable` trait
key of a microbe is never required (`m.get('desireable', [])`), and an
entity lacking it is scored exactly as if it carried the empty trait list:
replacing every microbe's trait key by the explicit (possibly defaulted)
list changes nothing. -/
theorem score_missing_trait_key_ok (microbes : List MicrobeDict)
    (sp : SiteProfile) :
    ((calculate_score microbes sp).isSome ↔
      ((∀ m ∈ microbes, m.permeability.isSome) ∧
       (∀ m ∈ microbes, m.mobility.isSome) ∧
       (∀ m ∈ microbes, m.energy.isSome) ∧
       sp.permeability.isSome ∧ sp.mobility.isSome ∧
       sp.energy.isSome ∧ sp.desirable.isSome)) ∧
    calculate_score microbes sp =
      calculate_score
        (microbes.map (fun m => { m with desireable := some m.traits })) sp := by
  constructor
  · rw [← mapM_isSome_iff MicrobeDict.permeability microbes,
        ← mapM_isSome_iff MicrobeDict.mobility microbes,
        ← mapM_isSome_iff MicrobeDict.energy microbes]
    obtain ⟨sp1, sp2, sp3, sp4⟩ := sp
    rcases hp : microbes.mapM MicrobeDict.permeability with _ | perms <;>
      rcases hm : microbes.mapM MicrobeDict.mobility with _ | mobs <;>
        rcases he : microbes.mapM MicrobeDict.energy with _ | ens <;>
          rcases sp1 with _ | pr <;> rcases sp2 with _ | mr <;>
            rcases sp3 with _ | er <;> rcases sp4 with _ | des <;>
              simp only [calculate_score, hp, hm, he] <;> simp
  · have e1 := mapM_map_eq (fun m => { m with desireable := some m.traits })
      MicrobeDict.permeability (fun a => rfl) microbes
    have e2 := mapM_map_eq (fun m => { m with desireable := some m.traits })
      MicrobeDict.mobility (fun a => rfl) microbes
    have e3 := mapM_map_eq (fun m => { m with desireable := some m.traits })
      MicrobeDict.energy (fun a => rfl) microbes
    obtain ⟨sp1, sp2, sp3, sp4⟩ := sp
    rcases hp : microbes.mapM MicrobeDict.permeability with _ | perms <;>
      rcases hm : microbes.mapM MicrobeDict.mobility with _ | mobs <;>
        rcases he : microbes.mapM MicrobeDict.energy with _ | ens <;>
          rcases sp1 with _ | pr <;> rcases sp2 with _ | mr <;>
            rcases sp3 with _ | er <;> rcases sp4 with _ | des <;>
              simp only [calculate_score, e1, e2, e3, hp, hm, he] <;>
                simp [List.any_map, Function.comp, MicrobeDict.traits]
